import Mathlib

/-!
Verification of the Wordify generation pipeline (backend/words.py,
backend/phrases.py, backend/sentence.py): the Gemini generation clients
with their retry/timeout/fallback policy, and the response extractors
that recover JSON from raw model output.

Strings from the Python code are modelled as `List Char`.  The external
provider is modelled as an oracle `Nat → Outcome` giving the outcome of
the i-th HTTP request issued by a client call; each client returns the
Python result (or raised error) together with the list of timeout values
of the requests it issued, in order.
-/

/-- JSON values as recovered by Python's `json.loads`.  Numbers keep their
source lexeme (this sidesteps float semantics, which no claim touches);
objects keep their members in parse order (CPython collapses duplicate
keys keeping the last value; no input in this development has duplicate
keys). -/
inductive Json : Type where
  | null : Json
  | bool (b : Bool) : Json
  | num (lexeme : List Char) : Json
  | str (s : List Char) : Json
  | arr (elems : List Json) : Json
  | obj (members : List (List Char × Json)) : Json


/-- JSON whitespace accepted by Python's `json` scanner: space, tab,
newline, carriage return. -/
def jsonWs (c : Char) : Bool :=
  c = ' ' || c = '\t' || c = '\n' || c = '\r'

/-- Skip JSON whitespace. -/
def skipWs (l : List Char) : List Char := l.dropWhile jsonWs

/-- Hexadecimal digit value. -/
def hexVal (c : Char) : Option Nat :=
  if '0' ≤ c ∧ c ≤ '9' then some (c.toNat - '0'.toNat)
  else if 'a' ≤ c ∧ c ≤ 'f' then some (c.toNat - 'a'.toNat + 10)
  else if 'A' ≤ c ∧ c ≤ 'F' then some (c.toNat - 'A'.toNat + 10)
  else none

mutual

/-- Scan the body of a JSON string literal (opening quote already
consumed): returns the decoded characters and the input after the
closing quote.  Mirrors Python's strict string scanner: raw control
characters below 0x20 are rejected and the standard escapes are
decoded; `\uXXXX` becomes the character with that code (CPython
additionally pairs surrogate escapes; no input here uses surrogates). -/
def strScan : List Char → Option (List Char × List Char)
  | [] => none
  | c :: r =>
    if c = '"' then some ([], r)
    else if c = '\\' then strScanEsc r
    else if c.toNat < 0x20 then none
    else (strScan r).map fun p => (c :: p.1, p.2)

/-- Scan an escape sequence inside a JSON string literal (the backslash
already consumed) and the remainder of the string body. -/
def strScanEsc : List Char → Option (List Char × List Char)
  | [] => none
  | e :: r2 =>
    if e = 'u' then
      match r2 with
      | h1 :: h2 :: h3 :: h4 :: r6 =>
        match hexVal h1, hexVal h2, hexVal h3, hexVal h4 with
        | some a, some b, some c, some d =>
          (strScan r6).map fun p =>
            (Char.ofNat (((a * 16 + b) * 16 + c) * 16 + d) :: p.1, p.2)
        | _, _, _, _ => none
      | _ => none
    else
      match
        (if e = '"' then some '"'
         else if e = '\\' then some '\\'
         else if e = '/' then some '/'
         else if e = 'b' then some '\x08'
         else if e = 'f' then some '\x0c'
         else if e = 'n' then some '\n'
         else if e = 'r' then some '\r'
         else if e = 't' then some '\t'
         else none) with
      | some d => (strScan r2).map fun p => (d :: p.1, p.2)
      | none => none

end

/-- Scan the integer part of a JSON number: `0`, or a nonzero digit
followed by digits. -/
def intScan : List Char → Option (List Char × List Char)
  | '0' :: r => some (['0'], r)
  | c :: r =>
    if c.isDigit then
      some (c :: r.takeWhile Char.isDigit, r.dropWhile Char.isDigit)
    else none
  | [] => none

/-- Scan an optional fraction part `.digits`; when the input does not
start a well-formed fraction the lexeme simply ends before it. -/
def fracScan : List Char → Option (List Char × List Char)
  | '.' :: d :: r =>
    if d.isDigit then
      some ('.' :: d :: r.takeWhile Char.isDigit, r.dropWhile Char.isDigit)
    else none
  | _ => none

/-- Scan an exponent body `[+-]? digits` (the `e`/`E` already seen). -/
def expScan : List Char → Option (List Char × List Char)
  | '+' :: d :: r =>
    if d.isDigit then
      some ('+' :: d :: r.takeWhile Char.isDigit, r.dropWhile Char.isDigit)
    else none
  | '-' :: d :: r =>
    if d.isDigit then
      some ('-' :: d :: r.takeWhile Char.isDigit, r.dropWhile Char.isDigit)
    else none
  | d :: r =>
    if d.isDigit then
      some (d :: r.takeWhile Char.isDigit, r.dropWhile Char.isDigit)
    else none
  | [] => none

/-- Scan a JSON number, following the regex used by Python's `json`
scanner (`-?(0|[1-9]\d*)(\.\d+)?([eE][+-]?\d+)?`), plus the `NaN`,
`Infinity` and `-Infinity` constants that `json.loads` accepts by
default.  Returns the lexeme and the rest; `none` when no number starts
here. -/
def numScan (l : List Char) : Option (List Char × List Char) :=
  if ['N', 'a', 'N'].isPrefixOf l then
    some (['N', 'a', 'N'], l.drop 3)
  else if ['I', 'n', 'f', 'i', 'n', 'i', 't', 'y'].isPrefixOf l then
    some (['I', 'n', 'f', 'i', 'n', 'i', 't', 'y'], l.drop 8)
  else if ['-', 'I', 'n', 'f', 'i', 'n', 'i', 't', 'y'].isPrefixOf l then
    some (['-', 'I', 'n', 'f', 'i', 'n', 'i', 't', 'y'], l.drop 9)
  else
    let (sign, l1) : List Char × List Char :=
      match l with
      | '-' :: r => (['-'], r)
      | _ => ([], l)
    match intScan l1 with
    | none => none
    | some (ip, r1) =>
      let (fp, r2) : List Char × List Char :=
        match fracScan r1 with
        | some p => p
        | none => ([], r1)
      let (ep, r3) : List Char × List Char :=
        match r2 with
        | 'e' :: rest =>
          (match expScan rest with
           | some (t, rr) => ('e' :: t, rr)
           | none => ([], r2))
        | 'E' :: rest =>
          (match expScan rest with
           | some (t, rr) => ('E' :: t, rr)
           | none => ([], r2))
        | _ => ([], r2)
      some (sign ++ ip ++ fp ++ ep, r3)

mutual

/-- Parse one JSON value (leading whitespace allowed), returning the
value and the remaining input.  Fuel-based recursion; `parseJson`
supplies fuel equal to the input length, which always suffices because
every recursive call strictly consumes input. -/
def parseVal : Nat → List Char → Option (Json × List Char)
  | 0, _ => none
  | f + 1, l =>
    match skipWs l with
    | [] => none
    | c :: r =>
      if c = '\x7b' then
        match skipWs r with
        | '\x7d' :: r2 => some (.obj [], r2)
        | r2 => parseMembers f r2 []
      else if c = '[' then
        match skipWs r with
        | ']' :: r2 => some (.arr [], r2)
        | r2 => parseElems f r2 []
      else if c = '"' then
        (strScan r).map fun p => (.str p.1, p.2)
      else if c = 't' then
        match r with
        | 'r' :: 'u' :: 'e' :: r2 => some (.bool true, r2)
        | _ => none
      else if c = 'f' then
        match r with
        | 'a' :: 'l' :: 's' :: 'e' :: r2 => some (.bool false, r2)
        | _ => none
      else if c = 'n' then
        match r with
        | 'u' :: 'l' :: 'l' :: r2 => some (.null, r2)
        | _ => none
      else
        (numScan (c :: r)).map fun p => (.num p.1, p.2)

/-- Parse the members of a JSON object, the opening brace and any
following whitespace already consumed, the input known not to start
with a closing brace. -/
def parseMembers : Nat → List Char → List (List Char × Json) →
    Option (Json × List Char)
  | 0, _, _ => none
  | f + 1, l, acc =>
    match l with
    | '"' :: r =>
      match strScan r with
      | none => none
      | some (k, r2) =>
        match skipWs r2 with
        | ':' :: r3 =>
          match parseVal f r3 with
          | none => none
          | some (v, r4) =>
            match skipWs r4 with
            | ',' :: r5 => parseMembers f (skipWs r5) (acc ++ [(k, v)])
            | '\x7d' :: r5 => some (.obj (acc ++ [(k, v)]), r5)
            | _ => none
        | _ => none
    | _ => none

/-- Parse the elements of a JSON array, the opening bracket and any
following whitespace already consumed, the input known not to start
with a closing bracket. -/
def parseElems : Nat → List Char → List Json → Option (Json × List Char)
  | 0, _, _ => none
  | f + 1, l, acc =>
    match parseVal f l with
    | none => none
    | some (v, r) =>
      match skipWs r with
      | ',' :: r2 => parseElems f (skipWs r2) (acc ++ [v])
      | ']' :: r2 => some (.arr (acc ++ [v]), r2)
      | _ => none

end

/-- Model of Python's `json.loads`: parse one JSON document; trailing
whitespace is allowed, any other trailing data is an error. -/
def parseJson (l : List Char) : Option Json :=
  match parseVal l.length l with
  | some (j, rest) => if skipWs rest = [] then some j else none
  | none => none

example : parseJson "\x7b\"a\": 1\x7d".toList =
    some (.obj [(['a'], .num ['1'])]) := by rfl

example : parseJson "  [1, \"x\", true, null, 2.5e-3] ".toList =
    some (.arr [.num ['1'], .str ['x'], .bool true, .null,
      .num ['2', '.', '5', 'e', '-', '3']]) := by rfl

example : parseJson "\x7b\"a\":1\x7d extra".toList = none := by rfl

example : parseJson "\x7b\"a\":1".toList = none := by rfl

/-- Shorthand: the character list of a string literal. -/
def cs (s : String) : List Char := s.toList

/-- Drop characters until the first occurrence of `c` (kept), `none`
when `c` does not occur. -/
def dropTo (c : Char) : List Char → Option (List Char)
  | [] => none
  | a :: r => if a = c then some (a :: r) else dropTo c r

/-- Model of `re.search(r'\{.*\}', text, re.DOTALL)`: the span running
from the first opening brace to the last closing brace, provided that
closing brace lies after the opening one (the regex needs at least one
character pair `{`…`}` in that order; `.*` is greedy and dot matches
newlines under DOTALL). -/
def braceSpan (t : List Char) : Option (List Char) :=
  (dropTo '\x7b' t).bind fun s => (dropTo '\x7d' s.reverse).map List.reverse

example : braceSpan (cs "ab\x7bcd\x7def\x7dgh") = some (cs "\x7bcd\x7def\x7d") := by rfl
example : braceSpan (cs "no braces") = none := by rfl
example : braceSpan (cs "\x7dnope\x7b") = none := by rfl

/-- Worker for `pyReplace`, with fuel; each step strictly shortens the
input, so fuel equal to the input length always suffices. -/
def pyReplaceFuel (pat : List Char) : Nat → List Char → List Char
  | 0, l => l
  | _ + 1, [] => []
  | f + 1, c :: r =>
    if pat ≠ [] ∧ pat.isPrefixOf (c :: r) then
      pyReplaceFuel pat f (r.drop (pat.length - 1))
    else c :: pyReplaceFuel pat f r

/-- Python `str.replace(pat, '')` for a non-empty pattern: remove every
occurrence, scanning left to right, resuming after each removed
occurrence. -/
def pyReplace (pat : List Char) (l : List Char) : List Char :=
  pyReplaceFuel pat l.length l

/-- Characters stripped by Python's `str.strip()` (the ASCII whitespace
characters; `str.strip` also strips some Unicode space characters,
which no input in this development contains). -/
def pySpace (c : Char) : Bool :=
  c = ' ' || c = '\t' || c = '\n' || c = '\r' || c = '\x0b' || c = '\x0c' ||
    (0x1c ≤ c.toNat && c.toNat ≤ 0x1f)

/-- Python `str.strip()`. -/
def pyStrip (l : List Char) : List Char :=
  ((l.dropWhile pySpace).reverse.dropWhile pySpace).reverse

/-- The markdown-fence cleanup applied by every extractor:
`json_str.replace('```json', '').replace('```', '').strip()`. -/
def cleanJsonStr (s : List Char) : List Char :=
  pyStrip (pyReplace (cs "\x60\x60\x60") (pyReplace (cs "\x60\x60\x60json") s))

/-- The degraded wrapper built by
`extract_definitions_from_response_for_words` when no JSON span is
found or parsing fails (words.py lines 131-141 and 142-153: both
branches build the same dictionary). -/
def degraded_words (response_text : List Char) : Json :=
  .obj [(cs "word", .str (cs "unknown")),
        (cs "meanings", .arr [
          .obj [(cs "definition", .str response_text),
                (cs "part_of_speech", .str (cs "unknown")),
                (cs "examples", .arr []),
                (cs "synonyms", .arr [])]])]

/-- words.py `extract_definitions_from_response_for_words`: find the
first-`{`-to-last-`}` span, clean fences, `json.loads` it; on no span
or on a parse failure return the degraded wrapper. -/
def extract_definitions_from_response_for_words (response_text : List Char) : Json :=
  match braceSpan response_text with
  | some json_match =>
    match parseJson (cleanJsonStr json_match) with
    | some j => j
    | none => degraded_words response_text
  | none => degraded_words response_text

/-- The degraded wrapper built by `extract_phrase_meanings_from_response`
(phrases.py lines 133-143 and 144-155). -/
def degraded_phrase (response_text : List Char) : Json :=
  .obj [(cs "phrase", .str (cs "unknown")),
        (cs "meanings", .arr [
          .obj [(cs "definition", .str response_text),
                (cs "context", .str (cs "unknown")),
                (cs "examples", .arr []),
                (cs "similar_phrases", .arr [])]])]

/-- phrases.py `extract_phrase_meanings_from_response`. -/
def extract_phrase_meanings_from_response (response_text : List Char) : Json :=
  match braceSpan response_text with
  | some json_match =>
    match parseJson (cleanJsonStr json_match) with
    | some j => j
    | none => degraded_phrase response_text
  | none => degraded_phrase response_text

/-- The degraded wrapper built by `extract_sentences_from_response`
(sentence.py lines 146-154 and 155-165): note the raw text is stored
under the key `example_sentences`, unlike the `sentences` key used by
the requested schema and by `get_fallback_sentences`. -/
def degraded_sentences (response_text : List Char) : Json :=
  .obj [(cs "sentences", .arr [
    .obj [(cs "word", .str (cs "unknown")),
          (cs "meaning", .str (cs "unknown")),
          (cs "part_of_speech", .str (cs "unknown")),
          (cs "example_sentences", .arr [.str response_text])]])]

/-- sentence.py `extract_sentences_from_response`. -/
def extract_sentences_from_response (response_text : List Char) : Json :=
  match braceSpan response_text with
  | some json_match =>
    match parseJson (cleanJsonStr json_match) with
    | some j => j
    | none => degraded_sentences response_text
  | none => degraded_sentences response_text

/-- The degraded wrapper built by `extract_phrase_sentences_from_response`
(phrases.py lines 251-259 and 260-270); this one does use the
`sentences` key. -/
def degraded_phrase_sentences (response_text : List Char) : Json :=
  .obj [(cs "sentences", .arr [
    .obj [(cs "phrase", .str (cs "unknown")),
          (cs "meaning", .str (cs "unknown")),
          (cs "context", .str (cs "unknown")),
          (cs "sentences", .arr [.str response_text])]])]

/-- phrases.py `extract_phrase_sentences_from_response`. -/
def extract_phrase_sentences_from_response (response_text : List Char) : Json :=
  match braceSpan response_text with
  | some json_match =>
    match parseJson (cleanJsonStr json_match) with
    | some j => j
    | none => degraded_phrase_sentences response_text
  | none => degraded_phrase_sentences response_text

example : extract_definitions_from_response_for_words
    (cs "Sure! \x60\x60\x60json\n\x7b\"word\": \"run\"\x7d\n\x60\x60\x60") =
    .obj [(cs "word", .str (cs "run"))] := by rfl

example : extract_definitions_from_response_for_words (cs "no json here") =
    degraded_words (cs "no json here") := by rfl

example : extract_definitions_from_response_for_words (cs "\x7b\"a\":1\x7d and also \x7b\"b\":2\x7d") =
    degraded_words (cs "\x7b\"a\":1\x7d and also \x7b\"b\":2\x7d") := by rfl

def fbWordA : List Char := ("\x7b\n        \"word\": \"").toList

def fbWordB : List Char := ("\",\n        \"meanings\": [\n            \x7b\n                \"definition\": \"Definition temporarily unavailable. Please try again later.\",\n                \"part_of_speech\": \"unknown\",\n                \"examples\": [\"The word '").toList

def fbWordC : List Char := ("' is being processed.\"],\n                \"synonyms\": []\n            \x7d\n        ]\n    \x7d").toList

def fbPhraseA : List Char := ("\x7b\n        \"phrase\": \"").toList

def fbPhraseB : List Char := ("\",\n        \"meanings\": [\n            \x7b\n                \"definition\": \"Definition temporarily unavailable. Please try again later.\",\n                \"context\": \"general\",\n                \"examples\": [\"The phrase '").toList

def fbPhraseC : List Char := ("' is being processed.\"],\n                \"similar_phrases\": []\n            \x7d\n        ]\n    \x7d").toList

def sentencePromptA : List Char := ("\n        Meaning will be read by new English learners. Give simple, clear, and easy-to-understand sentences.\n        Provide sentences that are in daily conversation and easy to understand. Sentences should be new and easy to grasp.\n        Create sentences using these words with their specific meanings and parts of speech:\n        \n        ").toList

def sentencePromptB : List Char := ("\n        \n        For each word, create 2-3 example sentences that clearly demonstrate the given meaning and part of speech.\n        \n        Return the response as a JSON object with this exact structure:\n        \x7b\n            \"sentences\": [\n                \x7b\n                    \"word\": \"word here\",\n                    \"meaning\": \"the specific meaning used\",\n                    \"part_of_speech\": \"noun/verb/adjective etc\",\n                    \"sentences\": [\"sentence 1 using the word\", \"sentence 2 using the word\", \"sentence 3 using the word\"]\n                \x7d\n            ]\n        \x7d\n        \n        Make sure each sentence clearly shows the word being used in the context of the given meaning and part of speech.\n        ").toList

def wordDescA : List Char := ("- \"").toList

def wordDescB : List Char := ("\" (meaning: ").toList

def wordDescC : List Char := (", part of speech: ").toList

def wordDescD : List Char := (")").toList

/-- Body of an HTTP response from the provider, as seen by the clients:
either the reply text successfully extracted via
`data['candidates'][0]['content']['parts'][0]['text']`, or `invalid` —
covering a body that is not JSON (so `response.json()` raises) as well
as a JSON body whose `candidates[0].content.parts` chain is missing,
empty or falsy, or lacks the `text` field.  Every client treats all
those invalid-body cases through the same code path, so one constructor
suffices. -/
inductive Body : Type where
  | invalid : Body
  | text (t : List Char) : Body
  deriving DecidableEq

/-- Outcome of one `requests.post` call to the provider. -/
inductive Outcome : Type where
  | timeout : Outcome
  | transportError : Outcome
  | resp (status : Nat) (body : Body) : Outcome
  deriving DecidableEq

/-- `response.ok` in requests: true iff the status code is below 400. -/
def respOk (status : Nat) : Bool := status < 400

/-- Errors raised (as Python exceptions) by the generation clients. -/
inductive GenErr : Type where
  | config : GenErr
  | badStatus (status : Nat) : GenErr
  | invalidFormat : GenErr
  | timeoutErr : GenErr
  | transportErr : GenErr

/-- Python truthiness of the `GEMINI_API_KEY` environment value:
`not gemini_api_key` is true when the variable is unset or empty. -/
def keyMissing : Option (List Char) → Bool
  | none => true
  | some s => s.isEmpty

/-- words.py `get_fallback_definition`: a JSON-shaped string with the
word interpolated twice. -/
def get_fallback_definition (word : List Char) : List Char :=
  fbWordA ++ word ++ fbWordB ++ word ++ fbWordC

/-- phrases.py `get_fallback_phrase_definition`. -/
def get_fallback_phrase_definition (phrase : List Char) : List Char :=
  fbPhraseA ++ phrase ++ fbPhraseB ++ phrase ++ fbPhraseC

/-- words.py `call_gemini_for_definitions`, modelled against a provider
oracle giving the outcome of each issued request; the second component
lists the timeout (in seconds) of every issued request, in order.
Prompt construction (lines 26-45) only affects the request body, which
the oracle abstracts, so it is not modelled.  Control flow of the retry
loop (lines 59-99): any failure of attempt 0 (timeout, transport error,
non-ok status, invalid body) falls through to attempt 1; on attempt 1
every failure returns the fallback string (the explicit raises on lines
70 and 79 are caught by the generic handler on line 93, which returns
the fallback). -/
def call_gemini_for_definitions (key : Option (List Char)) (word : List Char)
    (oracle : Nat → Outcome) : Except GenErr (List Char) × List Nat :=
  if keyMissing key then (.error .config, [])
  else
    let second : Except GenErr (List Char) × List Nat :=
      match oracle 1 with
      | .resp s (.text t) =>
        if respOk s then (.ok t, [15, 30])
        else (.ok (get_fallback_definition word), [15, 30])
      | _ => (.ok (get_fallback_definition word), [15, 30])
    match oracle 0 with
    | .resp s b =>
      if respOk s then
        match b with
        | .text t => (.ok t, [15])
        | .invalid => second
      else second
    | _ => second

/-- phrases.py `call_gemini_for_phrase_meanings` (lines 29-119).  The
retry loop (lines 73-103) only checks `response.ok` and breaks on the
first ok response; the body is examined after the loop (lines 105-115),
where an invalid body raises `Invalid response format from Gemini API`,
re-raised by the outer handler (lines 117-119) — it is never downgraded
to the fallback.  A `response.json()` failure likewise propagates; both
are modelled as `GenErr.invalidFormat`. -/
def call_gemini_for_phrase_meanings (key : Option (List Char)) (phrase : List Char)
    (oracle : Nat → Outcome) : Except GenErr (List Char) × List Nat :=
  if keyMissing key then (.error .config, [])
  else
    let afterBreak : Body → List Nat → Except GenErr (List Char) × List Nat :=
      fun b tr =>
        match b with
        | .text t => (.ok t, tr)
        | .invalid => (.error .invalidFormat, tr)
    let second : Except GenErr (List Char) × List Nat :=
      match oracle 1 with
      | .resp s b =>
        if respOk s then afterBreak b [15, 30]
        else (.ok (get_fallback_phrase_definition phrase), [15, 30])
      | _ => (.ok (get_fallback_phrase_definition phrase), [15, 30])
    match oracle 0 with
    | .resp s b => if respOk s then afterBreak b [15] else second
    | _ => second

/-- One entry of the array accepted by the sentence-framing endpoints
(sentence.py `WordData`); all fields are required strings. -/
structure WordData : Type where
  word : List Char
  meaning : List Char
  part_of_speech : List Char

/-- sentence.py `get_fallback_sentences`: a dictionary (not a string)
with one entry per input word; each entry stores its one synthesized
sentence under the key `sentences`.  (The `item.get` defaults `'word'`
and `'unknown'` are unreachable here because `WordData` fields are
required.) -/
def get_fallback_sentences (word_data_array : List WordData) : Json :=
  .obj [(cs "sentences", .arr (word_data_array.map fun item =>
    .obj [(cs "word", .str item.word),
          (cs "sentences", .arr [.str
            (cs "This is an example sentence using the word '" ++ item.word ++ cs "'.")]),
          (cs "part_of_speech", .str item.part_of_speech)]))]

/-- Result of sentence.py `call_gemini_for_sentences`: the raw reply
text (a string) on success, or the fallback dictionary on failure — the
two have different Python types. -/
inductive SentencesReturn : Type where
  | text (t : List Char) : SentencesReturn
  | fallback (j : Json) : SentencesReturn

/-- sentence.py `call_gemini_for_sentences` (lines 27-131): the same
15s/30s two-attempt retry loop as the single-word client, but every
failure path returns `get_fallback_sentences` (lines 94, 103, 114,
120, 124) rather than raising; only the missing-credential check
raises.  On success the loop breaks and the reply text is returned. -/
def call_gemini_for_sentences (key : Option (List Char))
    (word_data_array : List WordData) (oracle : Nat → Outcome) :
    Except GenErr SentencesReturn × List Nat :=
  if keyMissing key then (.error .config, [])
  else
    let second : Except GenErr SentencesReturn × List Nat :=
      match oracle 1 with
      | .resp s (.text t) =>
        if respOk s then (.ok (.text t), [15, 30])
        else (.ok (.fallback (get_fallback_sentences word_data_array)), [15, 30])
      | _ => (.ok (.fallback (get_fallback_sentences word_data_array)), [15, 30])
    match oracle 0 with
    | .resp s b =>
      if respOk s then
        match b with
        | .text t => (.ok (.text t), [15])
        | .invalid => second
      else second
    | _ => second

/-- One entry of the array accepted by the phrase sentence-framing
endpoint (phrases.py `PhraseData`). -/
structure PhraseData : Type where
  phrase : List Char
  meaning : List Char
  context : List Char

/-- phrases.py `call_gemini_for_phrase_sentences` (lines 158-236): a
single request with a fixed 25-second timeout and no retry; every
failure — timeout, transport error, non-ok status (line 220), invalid
body (line 227) — raises, re-raised by the handler on lines 234-236. -/
def call_gemini_for_phrase_sentences (key : Option (List Char))
    (phrase_data_array : List PhraseData) (oracle : Nat → Outcome) :
    Except GenErr (List Char) × List Nat :=
  if keyMissing key then (.error .config, [])
  else
    match oracle 0 with
    | .timeout => (.error .timeoutErr, [25])
    | .transportError => (.error .transportErr, [25])
    | .resp s b =>
      if respOk s then
        match b with
        | .text t => (.ok t, [25])
        | .invalid => (.error .invalidFormat, [25])
      else (.error (.badStatus s), [25])

/-- Message of the Python exception corresponding to each `GenErr` (used
in the endpoints' 500 details).  Timeout/transport exception texts come
from the requests library and are opaque here. -/
def genErrMsg : GenErr → List Char
  | .config => cs "GEMINI_API_KEY environment variable not set"
  | .badStatus s => cs "Failed to call Gemini API: " ++ (Nat.repr s).toList
  | .invalidFormat => cs "Invalid response format from Gemini API"
  | .timeoutErr => cs "<requests timeout message>"
  | .transportErr => cs "<requests exception message>"

/-- An HTTP error response (FastAPI `HTTPException`). -/
structure HttpError : Type where
  status : Nat
  detail : List Char

/-- Python `dict.get(k, default)` on a structured value. -/
def jsonGetD (j : Json) (k : List Char) (d : Json) : Json :=
  match j with
  | .obj ms =>
    match ms.lookup k with
    | some v => v
    | none => d
  | _ => d

/-- Python `len` of a structured value (only ever applied to lists
here). -/
def jsonLen : Json → Nat
  | .arr l => l.length
  | .str s => s.length
  | .obj ms => ms.length
  | _ => 0

/-- sentence.py `frame_sentences` (lines 180-215): reject an empty word
array with a 400 before anything else (line 186-187, outside the try
block and before any provider call); otherwise call the client and
process its result, converting any exception to a 500 whose detail
wraps the original message.  When the client returned the fallback
dictionary instead of a string, `re.search` inside
`extract_sentences_from_response` raises `TypeError` (expected string
or bytes-like object), which the endpoint converts to a 500. -/
def frame_sentences (key : Option (List Char)) (words : List WordData)
    (oracle : Nat → Outcome) : Except HttpError Json × List Nat :=
  if words.length = 0 then
    (.error ⟨400, cs "Words must be a non-empty array"⟩, [])
  else
    match call_gemini_for_sentences key words oracle with
    | (.error e, tr) =>
      (.error ⟨500, cs "Server error: " ++ genErrMsg e⟩, tr)
    | (.ok (.fallback _), tr) =>
      (.error ⟨500, cs "Server error: expected string or bytes-like object"⟩, tr)
    | (.ok (.text t), tr) =>
      let sentences_data := extract_sentences_from_response t
      (.ok (.obj [
        (cs "words_processed", .num (Nat.repr words.length).toList),
        (cs "sentences", jsonGetD sentences_data (cs "sentences") (.arr [])),
        (cs "total_words", .num (Nat.repr (jsonLen (jsonGetD sentences_data (cs "sentences") (.arr [])))).toList),
        (cs "source", .str (cs "gemini_api"))]), tr)

/-- phrases.py `frame_phrase_sentences` (lines 495-530): reject an empty
phrase array with a 400 before anything else; otherwise call the
phrase-batch client (which raises on any failure) and build the
response, converting any exception to a 500. -/
def frame_phrase_sentences (key : Option (List Char)) (phrases : List PhraseData)
    (oracle : Nat → Outcome) : Except HttpError Json × List Nat :=
  if phrases.length = 0 then
    (.error ⟨400, cs "Phrases must be a non-empty array"⟩, [])
  else
    match call_gemini_for_phrase_sentences key phrases oracle with
    | (.error e, tr) =>
      (.error ⟨500, cs "Server error: " ++ genErrMsg e⟩, tr)
    | (.ok t, tr) =>
      let sentences_data := extract_phrase_sentences_from_response t
      (.ok (.obj [
        (cs "phrases_processed", .num (Nat.repr phrases.length).toList),
        (cs "sentences", jsonGetD sentences_data (cs "sentences") (.arr [])),
        (cs "total_phrases", .num (Nat.repr (jsonLen (jsonGetD sentences_data (cs "sentences") (.arr [])))).toList),
        (cs "source", .str (cs "gemini_api"))]), tr)

/-- sentence.py lines 38-45: the per-word description lines of the
batch sentence-framing prompt. -/
def wordDescription (item : WordData) : List Char :=
  wordDescA ++ item.word ++ wordDescB ++ item.meaning ++ wordDescC ++
    item.part_of_speech ++ wordDescD

/-- `'\n'.join` of a list of lines. -/
def joinNl : List (List Char) → List Char
  | [] => []
  | [l] => l
  | l :: ls => l ++ '\n' :: joinNl ls

/-- sentence.py lines 47-69: the batch sentence-framing prompt sent to
the provider, whose embedded schema asks for each entry's sentence list
under the key `sentences`. -/
def sentencePrompt (word_data_array : List WordData) : List Char :=
  sentencePromptA ++ joinNl (word_data_array.map wordDescription) ++ sentencePromptB

/-- An attempt outcome from which the clients' retry loops extract a
reply text: an ok-status response with a well-formed body. -/
def attemptSucceeds : Outcome → Bool
  | .resp s (.text _) => respOk s
  | _ => false

/-- A provider-call failure in the wide sense used for the batch paths:
timeout, transport error, non-success status, or malformed payload. -/
def attemptFails (o : Outcome) : Bool := !attemptSucceeds o

/-- A transport-level attempt failure: timeout, transport error, or
non-success status (the conditions under which the single-lookup retry
loops move on to their second attempt in words.py line 86/93/66 — a
well-formed-looking response with ok status is not one of these). -/
def transportFail : Outcome → Bool
  | .timeout => true
  | .transportError => true
  | .resp s _ => !respOk s

/-- The condition under which the phrase-meanings retry loop
(phrases.py lines 73-103) does not break at an attempt: any outcome
other than a response with ok status. -/
def phraseLoopContinues : Outcome → Bool
  | .resp s _ => !respOk s
  | _ => true

/-- The error raised by `call_gemini_for_phrase_sentences` for each
failing outcome of its single request. -/
def phraseBatchErr : Outcome → GenErr
  | .timeout => .timeoutErr
  | .transportError => .transportErr
  | .resp s b =>
    if respOk s then
      match b with
      | .invalid => .invalidFormat
      | .text _ => .invalidFormat
    else .badStatus s

/-- A character that cannot disturb the JSON structure of the fallback
templates when interpolated inside their string literals: not a quote,
backslash, backtick (fence marker) or control character. -/
def benignChar (c : Char) : Bool :=
  c != '"' && c != '\\' && c != '\x60' && decide (0x20 ≤ c.toNat)

/-- A lookup word/phrase all of whose characters are benign. -/
def benignStr (w : List Char) : Bool := w.all benignChar

/-- The structured value carried by the words fallback string: exactly
one meaning, whose definition is the fixed "temporarily unavailable"
placeholder. -/
def wordFallbackJson (w : List Char) : Json :=
  .obj [(cs "word", .str w),
        (cs "meanings", .arr [
          .obj [(cs "definition", .str
                  (cs "Definition temporarily unavailable. Please try again later.")),
                (cs "part_of_speech", .str (cs "unknown")),
                (cs "examples", .arr [.str
                  (cs "The word '" ++ w ++ cs "' is being processed.")]),
                (cs "synonyms", .arr [])]])]

/-- The structured value carried by the phrase fallback string. -/
def phraseFallbackJson (p : List Char) : Json :=
  .obj [(cs "phrase", .str p),
        (cs "meanings", .arr [
          .obj [(cs "definition", .str
                  (cs "Definition temporarily unavailable. Please try again later.")),
                (cs "context", .str (cs "general")),
                (cs "examples", .arr [.str
                  (cs "The phrase '" ++ p ++ cs "' is being processed.")]),
                (cs "similar_phrases", .arr [])]])]

/-- `fbWordA` without its leading opening brace. -/
def fbWordA0 : List Char := ("\n        \"word\": \"").toList

/-- `fbWordC` without its trailing closing brace. -/
def fbWordC0 : List Char := ("' is being processed.\"],\n                \"synonyms\": []\n            \x7d\n        ]\n    ").toList

/-- `fbPhraseA` without its leading opening brace. -/
def fbPhraseA0 : List Char := ("\n        \"phrase\": \"").toList

/-- `fbPhraseC` without its trailing closing brace. -/
def fbPhraseC0 : List Char := ("' is being processed.\"],\n                \"similar_phrases\": []\n            \x7d\n        ]\n    ").toList

/-- The words fallback string between its outer braces. -/
def fbWordMid (w : List Char) : List Char :=
  fbWordA0 ++ w ++ fbWordB ++ w ++ fbWordC0

/-- The phrase fallback string between its outer braces. -/
def fbPhraseMid (p : List Char) : List Char :=
  fbPhraseA0 ++ p ++ fbPhraseB ++ p ++ fbPhraseC0

/-- The top-level keys of a structured value, in order (empty for
non-objects). -/
def jsonKeys : Json → List (List Char)
  | .obj ms => ms.map Prod.fst
  | _ => []

/-- One entry of the `get_fallback_sentences` dictionary. -/
def fallback_sentence_entry (item : WordData) : Json :=
  .obj [(cs "word", .str item.word),
        (cs "sentences", .arr [.str
          (cs "This is an example sentence using the word '" ++ item.word ++ cs "'.")]),
        (cs "part_of_speech", .str item.part_of_speech)]

/-- C5: with the provider credential absent (unset or empty), each of
the four generation entry points raises the configuration error
immediately and issues no provider request (the request trace is
empty), so the error is neither retried nor downgraded to a fallback. -/
theorem credential_missing_fails_fast
    (key : Option (List Char)) (hk : keyMissing key = true)
    (w p : List Char) (wa : List WordData) (pa : List PhraseData)
    (oracle : Nat → Outcome) :
    call_gemini_for_definitions key w oracle = (.error .config, []) ∧
    call_gemini_for_phrase_meanings key p oracle = (.error .config, []) ∧
    call_gemini_for_sentences key wa oracle = (.error .config, []) ∧
    call_gemini_for_phrase_sentences key pa oracle = (.error .config, []) := by
  refine ⟨?_, ?_, ?_, ?_⟩ <;>
    simp [call_gemini_for_definitions, call_gemini_for_phrase_meanings,
      call_gemini_for_sentences, call_gemini_for_phrase_sentences, hk]

/-- Witness for C5 at a concrete input. -/
theorem credential_missing_fails_fast_witness :
    keyMissing none = true ∧
    call_gemini_for_definitions none (cs "run") (fun _ => .timeout) =
      (.error .config, []) := by
  refine ⟨by decide, ?_⟩
  exact (credential_missing_fails_fast none (by decide) (cs "run") (cs "hit")
    [] [] (fun _ => .timeout)).1

/-- C9: both batch sentence-framing endpoints reject an empty input
array with a 400 empty-input error before any provider request is
issued (the request trace is empty). -/
theorem empty_batch_rejected_before_provider_call
    (key : Option (List Char)) (oracle : Nat → Outcome) :
    frame_sentences key [] oracle =
      (.error ⟨400, cs "Words must be a non-empty array"⟩, []) ∧
    frame_phrase_sentences key [] oracle =
      (.error ⟨400, cs "Phrases must be a non-empty array"⟩, []) := by
  exact ⟨rfl, rfl⟩

/-- C1 (counterexample): the claim says every batch sentence-framing
client propagates provider failures as errors and never returns a
fallback; but the word-batch client `call_gemini_for_sentences`, when
both attempts time out, returns the fallback dictionary as an ordinary
(non-error) result. -/
theorem batch_framing_word_batch_returns_fallback :
    call_gemini_for_sentences (some (cs "k"))
      [⟨cs "run", cs "move fast", cs "verb"⟩] (fun _ => .timeout) =
    (.ok (.fallback (get_fallback_sentences
      [⟨cs "run", cs "move fast", cs "verb"⟩])), [15, 30]) := by
  rfl

/-- C1 (amended): only the phrase-batch client
`call_gemini_for_phrase_sentences` propagates every provider failure
(timeout, transport error, non-success status, malformed payload) as an
error and never returns a fallback; the word-batch client
`call_gemini_for_sentences` instead returns the fallback dictionary as a
non-error result once both of its attempts fail. -/
theorem batch_framing_failure_propagation
    (key : Option (List Char)) (hk : keyMissing key = false)
    (wa : List WordData) (pa : List PhraseData) (oracle : Nat → Outcome) :
    (attemptFails (oracle 0) = true →
      call_gemini_for_phrase_sentences key pa oracle =
        (.error (phraseBatchErr (oracle 0)), [25])) ∧
    (attemptFails (oracle 0) = true → attemptFails (oracle 1) = true →
      call_gemini_for_sentences key wa oracle =
        (.ok (.fallback (get_fallback_sentences wa)), [15, 30])) := by
  constructor
  · intro h0
    cases o0 : oracle 0 with
    | timeout => simp [call_gemini_for_phrase_sentences, phraseBatchErr, hk, o0]
    | transportError => simp [call_gemini_for_phrase_sentences, phraseBatchErr, hk, o0]
    | resp s b =>
      rw [o0] at h0
      cases b with
      | invalid =>
        simp only [call_gemini_for_phrase_sentences, phraseBatchErr, hk,
          Bool.false_eq_true, if_false, o0]
        by_cases hok : respOk s = true <;> simp [hok]
      | text t =>
        simp [attemptFails, attemptSucceeds] at h0
        simp [call_gemini_for_phrase_sentences, phraseBatchErr, hk, o0, h0]
  · intro h0 h1
    cases o0 : oracle 0 with
    | timeout =>
      cases o1 : oracle 1 with
      | timeout => simp [call_gemini_for_sentences, hk, o0, o1]
      | transportError => simp [call_gemini_for_sentences, hk, o0, o1]
      | resp s b =>
        rw [o1] at h1
        cases b with
        | invalid => simp [call_gemini_for_sentences, hk, o0, o1]
        | text t =>
          simp [attemptFails, attemptSucceeds] at h1
          simp [call_gemini_for_sentences, hk, o0, o1, h1]
    | transportError =>
      cases o1 : oracle 1 with
      | timeout => simp [call_gemini_for_sentences, hk, o0, o1]
      | transportError => simp [call_gemini_for_sentences, hk, o0, o1]
      | resp s b =>
        rw [o1] at h1
        cases b with
        | invalid => simp [call_gemini_for_sentences, hk, o0, o1]
        | text t =>
          simp [attemptFails, attemptSucceeds] at h1
          simp [call_gemini_for_sentences, hk, o0, o1, h1]
    | resp s b =>
      rw [o0] at h0
      cases o1 : oracle 1 with
      | timeout =>
        cases b with
        | invalid => simp [call_gemini_for_sentences, hk, o0, o1]
        | text t =>
          simp [attemptFails, attemptSucceeds] at h0
          simp [call_gemini_for_sentences, hk, o0, o1, h0]
      | transportError =>
        cases b with
        | invalid => simp [call_gemini_for_sentences, hk, o0, o1]
        | text t =>
          simp [attemptFails, attemptSucceeds] at h0
          simp [call_gemini_for_sentences, hk, o0, o1, h0]
      | resp s2 b2 =>
        rw [o1] at h1
        cases b with
        | invalid =>
          cases b2 with
          | invalid => simp [call_gemini_for_sentences, hk, o0, o1]
          | text t2 =>
            simp [attemptFails, attemptSucceeds] at h1
            simp [call_gemini_for_sentences, hk, o0, o1, h1]
        | text t =>
          simp [attemptFails, attemptSucceeds] at h0
          cases b2 with
          | invalid => simp [call_gemini_for_sentences, hk, o0, o1, h0]
          | text t2 =>
            simp [attemptFails, attemptSucceeds] at h1
            simp [call_gemini_for_sentences, hk, o0, o1, h0, h1]

/-- Witness for the amended C1 at concrete inputs. -/
theorem batch_framing_failure_propagation_witness :
    keyMissing (some (cs "k")) = false ∧
    attemptFails Outcome.timeout = true ∧
    call_gemini_for_phrase_sentences (some (cs "k"))
      [⟨cs "hit the road", cs "leave", cs "informal"⟩] (fun _ => .timeout) =
      (.error (phraseBatchErr Outcome.timeout), [25]) := by
  refine ⟨by decide, by decide, ?_⟩
  exact (batch_framing_failure_propagation (some (cs "k")) (by decide)
    [] [⟨cs "hit the road", cs "leave", cs "informal"⟩]
    (fun _ => .timeout)).1 (by decide)

/-- C2 (counterexample): the claim says every batch sentence-framing
call issues exactly one provider request with a fixed timeout of 25;
but the word-batch client, with the provider timing out, issues two
requests with timeouts 15 and 30. -/
theorem word_batch_issues_two_requests :
    (call_gemini_for_sentences (some (cs "key"))
      [⟨cs "walk", cs "move on foot", cs "verb"⟩] (fun _ => .timeout)).2 =
      [15, 30] := by
  rfl

/-- C2 (amended): the phrase-batch client issues exactly one provider
request per invocation, with a fixed timeout of 25 and no retry; the
word-batch client issues one request with timeout 15 when that first
attempt yields a usable reply, and otherwise exactly one further
request with timeout 30. -/
theorem batch_framing_request_traces
    (key : Option (List Char)) (hk : keyMissing key = false)
    (wa : List WordData) (pa : List PhraseData) (oracle : Nat → Outcome) :
    (call_gemini_for_phrase_sentences key pa oracle).2 = [25] ∧
    (call_gemini_for_sentences key wa oracle).2 =
      (if attemptSucceeds (oracle 0) then [15] else [15, 30]) := by
  constructor
  · cases o0 : oracle 0 with
    | timeout => simp [call_gemini_for_phrase_sentences, hk, o0]
    | transportError => simp [call_gemini_for_phrase_sentences, hk, o0]
    | resp s b =>
      cases b <;>
        simp only [call_gemini_for_phrase_sentences, hk, Bool.false_eq_true,
          if_false, o0] <;>
        by_cases hok : respOk s = true <;> simp [hok]
  · cases o0 : oracle 0 with
    | timeout =>
      cases o1 : oracle 1 with
      | timeout => simp [call_gemini_for_sentences, attemptSucceeds, hk, o0, o1]
      | transportError => simp [call_gemini_for_sentences, attemptSucceeds, hk, o0, o1]
      | resp s b =>
        cases b <;>
          simp only [call_gemini_for_sentences, attemptSucceeds, hk,
            Bool.false_eq_true, if_false, o0, o1] <;>
          by_cases hok : respOk s = true <;> simp [hok]
    | transportError =>
      cases o1 : oracle 1 with
      | timeout => simp [call_gemini_for_sentences, attemptSucceeds, hk, o0, o1]
      | transportError => simp [call_gemini_for_sentences, attemptSucceeds, hk, o0, o1]
      | resp s b =>
        cases b <;>
          simp only [call_gemini_for_sentences, attemptSucceeds, hk,
            Bool.false_eq_true, if_false, o0, o1] <;>
          by_cases hok : respOk s = true <;> simp [hok]
    | resp s b =>
      cases b with
      | invalid =>
        by_cases hok : respOk s = true
        · cases o1 : oracle 1 with
          | timeout => simp [call_gemini_for_sentences, attemptSucceeds, hk, o0, o1, hok]
          | transportError => simp [call_gemini_for_sentences, attemptSucceeds, hk, o0, o1, hok]
          | resp s2 b2 =>
            cases b2 <;>
              simp only [call_gemini_for_sentences, attemptSucceeds, hk,
                Bool.false_eq_true, if_false, o0, o1, hok, if_true] <;>
              by_cases hok2 : respOk s2 = true <;> simp [hok, hok2]
        · cases o1 : oracle 1 with
          | timeout => simp [call_gemini_for_sentences, attemptSucceeds, hk, o0, o1, hok]
          | transportError => simp [call_gemini_for_sentences, attemptSucceeds, hk, o0, o1, hok]
          | resp s2 b2 =>
            cases b2 <;>
              simp only [call_gemini_for_sentences, attemptSucceeds, hk,
                Bool.false_eq_true, if_false, o0, o1, hok] <;>
              by_cases hok2 : respOk s2 = true <;> simp [hok, hok2]
      | text t =>
        by_cases hok : respOk s = true
        · simp [call_gemini_for_sentences, attemptSucceeds, hk, o0, hok]
        · cases o1 : oracle 1 with
          | timeout => simp [call_gemini_for_sentences, attemptSucceeds, hk, o0, o1, hok]
          | transportError => simp [call_gemini_for_sentences, attemptSucceeds, hk, o0, o1, hok]
          | resp s2 b2 =>
            cases b2 <;>
              simp only [call_gemini_for_sentences, attemptSucceeds, hk,
                Bool.false_eq_true, if_false, o0, o1, hok] <;>
              by_cases hok2 : respOk s2 = true <;> simp [hok, hok2]

/-- Witness for the amended C2 at concrete inputs. -/
theorem batch_framing_request_traces_witness :
    keyMissing (some (cs "key")) = false ∧
    (call_gemini_for_phrase_sentences (some (cs "key"))
      [⟨cs "call it a day", cs "stop working", cs "informal"⟩]
      (fun _ => .resp 500 .invalid)).2 = [25] := by
  refine ⟨by decide, ?_⟩
  exact (batch_framing_request_traces (some (cs "key")) (by decide)
    [] [⟨cs "call it a day", cs "stop working", cs "informal"⟩]
    (fun _ => .resp 500 .invalid)).1

/-- C3 (counterexample): the claim says that when the provider responds
on the last attempt with a body lacking
`candidates[0].content.parts[0].text`, both single-lookup paths return
a fallback; but the phrase path `call_gemini_for_phrase_meanings`
(first attempt timing out, second responding 200 with a malformed
body) raises the invalid-format error instead. -/
theorem phrase_lookup_malformed_last_attempt_raises :
    call_gemini_for_phrase_meanings (some (cs "k")) (cs "hit the road")
      (fun n => if n = 0 then .timeout else .resp 200 .invalid) =
    (.error .invalidFormat, [15, 30]) := by
  rfl

/-- C3 (amended): a provider response on the last attempt whose body
lacks `candidates[0].content.parts[0].text` is downgraded to the
fallback result by the word path `call_gemini_for_definitions`, but the
phrase path `call_gemini_for_phrase_meanings` raises the
invalid-format error whenever the response at which its retry loop
stops (first or second attempt alike) carries a malformed body. -/
theorem malformed_payload_last_attempt
    (key : Option (List Char)) (hk : keyMissing key = false)
    (w p : List Char) (oracle : Nat → Outcome) (s s2 : Nat)
    (hok2 : respOk s2 = true) :
    (transportFail (oracle 0) = true → oracle 1 = .resp s2 .invalid →
      call_gemini_for_definitions key w oracle =
        (.ok (get_fallback_definition w), [15, 30])) ∧
    (oracle 0 = .resp s .invalid → respOk s = true →
      call_gemini_for_phrase_meanings key p oracle =
        (.error .invalidFormat, [15])) ∧
    (phraseLoopContinues (oracle 0) = true → oracle 1 = .resp s2 .invalid →
      call_gemini_for_phrase_meanings key p oracle =
        (.error .invalidFormat, [15, 30])) := by
  have hfirstW : ∀ o, transportFail o = true →
      ∀ res : Except GenErr (List Char) × List Nat,
      (match o with
        | .resp st b =>
          if respOk st then
            match b with
            | .text t => (Except.ok t, [15])
            | .invalid => res
          else res
        | _ => res) = res := by
    intro o ho res
    cases o with
    | timeout => rfl
    | transportError => rfl
    | resp st b =>
      simp only [transportFail, Bool.not_eq_true'] at ho
      simp [ho]
  refine ⟨?_, ?_, ?_⟩
  · intro h0 h1
    cases o0 : oracle 0 with
    | timeout => simp [call_gemini_for_definitions, hk, o0, h1]
    | transportError => simp [call_gemini_for_definitions, hk, o0, h1]
    | resp st b =>
      rw [o0] at h0
      simp only [transportFail, Bool.not_eq_true'] at h0
      simp [call_gemini_for_definitions, hk, o0, h0, h1]
  · intro h0 hok
    simp [call_gemini_for_phrase_meanings, hk, h0, hok]
  · intro h0 h1
    cases o0 : oracle 0 with
    | timeout => simp [call_gemini_for_phrase_meanings, hk, o0, h1, hok2]
    | transportError => simp [call_gemini_for_phrase_meanings, hk, o0, h1, hok2]
    | resp st b =>
      rw [o0] at h0
      simp only [phraseLoopContinues, Bool.not_eq_true'] at h0
      simp [call_gemini_for_phrase_meanings, hk, o0, h0, h1, hok2]

/-- Witness for the amended C3 at concrete inputs. -/
theorem malformed_payload_last_attempt_witness :
    keyMissing (some (cs "k")) = false ∧
    respOk 200 = true ∧
    transportFail Outcome.timeout = true ∧
    call_gemini_for_definitions (some (cs "k")) (cs "run")
      (fun n => if n = 0 then .timeout else .resp 200 .invalid) =
      (.ok (get_fallback_definition (cs "run")), [15, 30]) := by
  refine ⟨by decide, by decide, by decide, ?_⟩
  exact (malformed_payload_last_attempt (some (cs "k")) (by decide)
    (cs "run") (cs "hit the road")
    (fun n => if n = 0 then .timeout else .resp 200 .invalid)
    200 200 (by decide)).1 (by decide) (by decide)

theorem dropTo_not_mem {c : Char} {p : List Char} (h : c ∉ p) (l : List Char) :
    dropTo c (p ++ l) = dropTo c l := by
  induction p with
  | nil => rfl
  | cons a r ih =>
    simp only [List.mem_cons, not_or] at h
    have hne : (a = c) = False := eq_false (fun he => h.1 he.symm)
    simp only [List.cons_append, dropTo, hne, if_false]
    exact ih h.2

theorem dropTo_none {c : Char} {l : List Char} (h : c ∉ l) :
    dropTo c l = none := by
  have := dropTo_not_mem h ([] : List Char)
  simpa using this

/-- The span found by the extractors runs from the first opening brace
to the last closing brace, however many braces the middle contains. -/
theorem braceSpan_first_to_last (p m q : List Char)
    (hp : '\x7b' ∉ p) (hq : '\x7d' ∉ q) :
    braceSpan (p ++ ('\x7b' :: (m ++ ('\x7d' :: q)))) =
      some ('\x7b' :: (m ++ ['\x7d'])) := by
  have h1 : dropTo '\x7b' (p ++ ('\x7b' :: (m ++ ('\x7d' :: q)))) =
      some ('\x7b' :: (m ++ ('\x7d' :: q))) :=
    (dropTo_not_mem hp ('\x7b' :: (m ++ ('\x7d' :: q)))).trans (by simp [dropTo])
  have h2 : dropTo '\x7d' (('\x7b' :: (m ++ ('\x7d' :: q))).reverse) =
      some ('\x7d' :: (m.reverse ++ ['\x7b'])) := by
    have hrev : ('\x7b' :: (m ++ ('\x7d' :: q))).reverse =
        q.reverse ++ ('\x7d' :: (m.reverse ++ ['\x7b'])) := by
      simp
    rw [hrev]
    exact (dropTo_not_mem (show '\x7d' ∉ q.reverse by simpa using hq)
      ('\x7d' :: (m.reverse ++ ['\x7b']))).trans (by simp [dropTo])
  unfold braceSpan
  rw [h1, Option.some_bind, h2]
  simp

theorem braceSpan_no_open {t : List Char} (h : '\x7b' ∉ t) :
    braceSpan t = none := by
  unfold braceSpan
  rw [dropTo_none h]
  rfl

theorem pyReplaceFuel_no_occurrence {pat l : List Char} (h : ¬ pat <:+: l) :
    ∀ f, pyReplaceFuel pat f l = l := by
  induction l with
  | nil => intro f; cases f <;> rfl
  | cons c r ih =>
    intro f
    cases f with
    | zero => rfl
    | succ f =>
      have hpre : ¬ (pat ≠ [] ∧ pat.isPrefixOf (c :: r)) := by
        rintro ⟨-, hp⟩
        exact h ((List.isPrefixOf_iff_prefix.mp hp).isInfix)
      have hr : ¬ pat <:+: r := by
        intro hi
        obtain ⟨s, t, hst⟩ := hi
        exact h ⟨c :: s, t, by simp [hst]⟩
      simp only [pyReplaceFuel, if_neg hpre]
      rw [ih hr]

theorem pyReplace_no_occurrence {pat l : List Char} (h : ¬ pat <:+: l) :
    pyReplace pat l = l :=
  pyReplaceFuel_no_occurrence h l.length

theorem pyStrip_of_ends (c d : Char) (m : List Char)
    (hc : pySpace c = false) (hd : pySpace d = false) :
    pyStrip (c :: (m ++ [d])) = c :: (m ++ [d]) := by
  unfold pyStrip
  rw [List.dropWhile_cons_of_neg (show ¬ pySpace c = true by simp [hc])]
  have hrev : (c :: (m ++ [d])).reverse = d :: (m.reverse ++ [c]) := by simp
  rw [hrev, List.dropWhile_cons_of_neg (show ¬ pySpace d = true by simp [hd]),
    ← hrev]
  simp

/-- On a brace-wrapped span containing no markdown fence, the cleanup
(`replace('\x60\x60\x60json','').replace('\x60\x60\x60','').strip()`) is the
identity. -/
theorem cleanJsonStr_id (m : List Char)
    (hf : ¬ (cs "\x60\x60\x60") <:+: ('\x7b' :: (m ++ ['\x7d']))) :
    cleanJsonStr ('\x7b' :: (m ++ ['\x7d'])) = '\x7b' :: (m ++ ['\x7d']) := by
  have hfj : ¬ (cs "\x60\x60\x60json") <:+: ('\x7b' :: (m ++ ['\x7d'])) := by
    intro hi
    exact hf
      (((by decide : (cs "\x60\x60\x60") <+: (cs "\x60\x60\x60json")).isInfix).trans hi)
  unfold cleanJsonStr
  rw [pyReplace_no_occurrence hfj, pyReplace_no_occurrence hf,
    pyStrip_of_ends _ _ _ (by decide) (by decide)]

/-- C6: the word extractor selects the greedy first-`{`-to-last-`}`
span, cleans code fences from it and parses it as JSON; when no such
span exists or the parse fails it returns the degraded wrapper, whose
single entry carries the entire raw text as its definition, the
"unknown" sentinel in the typed fields, and empty example/synonym
lists; in particular a text without `{` always degrades. -/
theorem extractor_greedy_span_and_degraded (t s p m q : List Char) :
    ('\x7b' ∉ p → '\x7d' ∉ q →
      braceSpan (p ++ ('\x7b' :: (m ++ ('\x7d' :: q)))) =
        some ('\x7b' :: (m ++ ['\x7d']))) ∧
    (braceSpan t = none →
      extract_definitions_from_response_for_words t = degraded_words t) ∧
    (braceSpan t = some s → parseJson (cleanJsonStr s) = none →
      extract_definitions_from_response_for_words t = degraded_words t) ∧
    (∀ j, braceSpan t = some s → parseJson (cleanJsonStr s) = some j →
      extract_definitions_from_response_for_words t = j) ∧
    ('\x7b' ∉ t →
      extract_definitions_from_response_for_words t = degraded_words t) ∧
    degraded_words t =
      .obj [(cs "word", .str (cs "unknown")),
            (cs "meanings", .arr [
              .obj [(cs "definition", .str t),
                    (cs "part_of_speech", .str (cs "unknown")),
                    (cs "examples", .arr []),
                    (cs "synonyms", .arr [])]])] := by
  refine ⟨fun hp hq => braceSpan_first_to_last p m q hp hq, ?_, ?_, ?_, ?_, rfl⟩
  · intro hn
    simp [extract_definitions_from_response_for_words, hn]
  · intro hs hp
    simp [extract_definitions_from_response_for_words, hs, hp]
  · intro j hs hp
    simp [extract_definitions_from_response_for_words, hs, hp]
  · intro hno
    simp [extract_definitions_from_response_for_words, braceSpan_no_open hno]

/-- Witness for C6 at concrete inputs. -/
theorem extractor_greedy_span_and_degraded_witness :
    braceSpan (cs "pre " ++ ('\x7b' :: (cs "\"a\":1" ++ ('\x7d' :: cs " post")))) =
      some ('\x7b' :: (cs "\"a\":1" ++ ['\x7d'])) ∧
    extract_definitions_from_response_for_words (cs "no json at all") =
      degraded_words (cs "no json at all") := by
  constructor
  · exact (extractor_greedy_span_and_degraded [] [] (cs "pre ") (cs "\"a\":1")
      (cs " post")).1 (by decide) (by decide)
  · exact (extractor_greedy_span_and_degraded (cs "no json at all") [] [] [] []).2.2.2.2.1
      (by decide)

/-- C7 (counterexample): the claim promises that a raw text consisting
of exactly one well-formed JSON object (no other braces) is recovered
exactly, field values unchanged; but on `{"a": "``` x"}` — a
well-formed object whose field value contains a markdown fence — the
fence-cleanup step rewrites the field value, so the extractor does not
return the object it contained. -/
theorem extractor_round_trip_counterexample :
    parseJson (cs "\x7b\"a\": \"\x60\x60\x60 x\"\x7d") =
      some (.obj [(cs "a", .str (cs "\x60\x60\x60 x"))]) ∧
    extract_definitions_from_response_for_words (cs "\x7b\"a\": \"\x60\x60\x60 x\"\x7d") =
      .obj [(cs "a", .str (cs " x"))] ∧
    extract_definitions_from_response_for_words (cs "\x7b\"a\": \"\x60\x60\x60 x\"\x7d") ≠
      .obj [(cs "a", .str (cs "\x60\x60\x60 x"))] := by
  refine ⟨rfl, rfl, ?_⟩
  intro h
  have h2 : Json.str (cs " x") = Json.str (cs "\x60\x60\x60 x") :=
    congrArg (fun j => jsonGetD j (cs "a") Json.null) h
  injection h2 with h3
  exact absurd h3 (by decide)

/-- C7 (amended): a raw text containing exactly one well-formed JSON
object and no other braces elsewhere is recovered exactly by the
extractor, provided the object's text contains no markdown fence
marker (three consecutive backticks) — such a marker would be removed
by the cleanup step before parsing, changing a field value. -/
theorem extractor_round_trip (p mid q : List Char) (j : Json)
    (hpo : '\x7b' ∉ p) (hpc : '\x7d' ∉ p)
    (hqo : '\x7b' ∉ q) (hqc : '\x7d' ∉ q)
    (hfence : ¬ (cs "\x60\x60\x60") <:+: ('\x7b' :: (mid ++ ['\x7d'])))
    (hparse : parseJson ('\x7b' :: (mid ++ ['\x7d'])) = some j) :
    extract_definitions_from_response_for_words
      (p ++ (('\x7b' :: (mid ++ ['\x7d'])) ++ q)) = j := by
  have hshape : p ++ (('\x7b' :: (mid ++ ['\x7d'])) ++ q) =
      p ++ ('\x7b' :: (mid ++ ('\x7d' :: q))) := by
    simp
  rw [hshape]
  have hspan := braceSpan_first_to_last p mid q hpo hqc
  have hclean := cleanJsonStr_id mid hfence
  simp [extract_definitions_from_response_for_words, hspan, hclean, hparse]

/-- Witness for the amended C7 at a concrete input. -/
theorem extractor_round_trip_witness :
    parseJson ('\x7b' :: (cs "\"a\": [1, true]" ++ ['\x7d'])) =
      some (.obj [(cs "a", .arr [.num ['1'], .bool true])]) ∧
    extract_definitions_from_response_for_words
      (cs "Sure! " ++ (('\x7b' :: (cs "\"a\": [1, true]" ++ ['\x7d'])) ++ cs " bye")) =
      .obj [(cs "a", .arr [.num ['1'], .bool true])] := by
  refine ⟨by rfl, ?_⟩
  exact extractor_round_trip (cs "Sure! ") (cs "\"a\": [1, true]") (cs " bye")
    (.obj [(cs "a", .arr [.num ['1'], .bool true])])
    (by decide) (by decide) (by decide) (by decide) (by decide) (by rfl)

/-- C8: both single-lookup extractors are total and pure: on every
input they return either the JSON value parsed from the cleaned brace
span or the degraded wrapper (no other outcome exists, and no
exception escapes in the model), and equal inputs give equal outputs. -/
theorem extractor_total_and_pure (t t' : List Char) :
    (extract_definitions_from_response_for_words t = degraded_words t ∨
      ∃ s j, braceSpan t = some s ∧ parseJson (cleanJsonStr s) = some j ∧
        extract_definitions_from_response_for_words t = j) ∧
    (extract_phrase_meanings_from_response t = degraded_phrase t ∨
      ∃ s j, braceSpan t = some s ∧ parseJson (cleanJsonStr s) = some j ∧
        extract_phrase_meanings_from_response t = j) ∧
    (t = t' →
      extract_definitions_from_response_for_words t =
        extract_definitions_from_response_for_words t' ∧
      extract_phrase_meanings_from_response t =
        extract_phrase_meanings_from_response t') := by
  refine ⟨?_, ?_, ?_⟩
  · cases hs : braceSpan t with
    | none => exact Or.inl (by simp [extract_definitions_from_response_for_words, hs])
    | some s =>
      cases hp : parseJson (cleanJsonStr s) with
      | none => exact Or.inl (by simp [extract_definitions_from_response_for_words, hs, hp])
      | some j =>
        refine Or.inr ⟨s, j, ?_, ?_, ?_⟩ <;>
          simp [extract_definitions_from_response_for_words, hs, hp]
  · cases hs : braceSpan t with
    | none => exact Or.inl (by simp [extract_phrase_meanings_from_response, hs])
    | some s =>
      cases hp : parseJson (cleanJsonStr s) with
      | none => exact Or.inl (by simp [extract_phrase_meanings_from_response, hs, hp])
      | some j =>
        refine Or.inr ⟨s, j, ?_, ?_, ?_⟩ <;>
          simp [extract_phrase_meanings_from_response, hs, hp]
  · rintro rfl
    exact ⟨rfl, rfl⟩

/-- Witness for C8 at a concrete input. -/
theorem extractor_total_and_pure_witness :
    (extract_definitions_from_response_for_words (cs "hello") =
        degraded_words (cs "hello") ∨
      ∃ s j, braceSpan (cs "hello") = some s ∧
        parseJson (cleanJsonStr s) = some j ∧
        extract_definitions_from_response_for_words (cs "hello") = j) ∧
    extract_definitions_from_response_for_words (cs "hello") =
      extract_definitions_from_response_for_words (cs "hello") := by
  exact ⟨(extractor_total_and_pure (cs "hello") (cs "hello")).1,
    ((extractor_total_and_pure (cs "hello") (cs "hello")).2.2 rfl).1⟩

theorem infix_of_drop_take {α : Type} (l pat : List α) (i : Nat)
    (h : (l.drop i).take pat.length = pat) : pat <:+: l := by
  have h2 := List.take_append_drop pat.length (l.drop i)
  rw [h] at h2
  have h3 := List.take_append_drop i l
  rw [← h2] at h3
  rw [← List.append_assoc] at h3
  exact ⟨l.take i, (l.drop i).drop pat.length, h3⟩

set_option maxRecDepth 2000 in
/-- C10: when the word-batch sentence extractor degrades (no brace span
or parse failure), its single entry stores the raw text under the key
`example_sentences`, while both the fallback dictionary's entries and
the schema embedded in the prompt use the key `sentences` for the
sentence list — so the degraded entry's key shape differs from the
schema's and from every fallback entry's. -/
theorem degraded_sentence_entry_key_mismatch (t : List Char)
    (items : List WordData) (item : WordData) :
    (braceSpan t = none →
      extract_sentences_from_response t = degraded_sentences t) ∧
    (∀ s, braceSpan t = some s → parseJson (cleanJsonStr s) = none →
      extract_sentences_from_response t = degraded_sentences t) ∧
    (∃ e, degraded_sentences t = .obj [(cs "sentences", .arr [e])] ∧
      jsonGetD e (cs "example_sentences") .null = .arr [.str t] ∧
      jsonKeys e =
        [cs "word", cs "meaning", cs "part_of_speech", cs "example_sentences"] ∧
      cs "sentences" ∉ jsonKeys e) ∧
    get_fallback_sentences items =
      .obj [(cs "sentences", .arr (items.map fallback_sentence_entry))] ∧
    (jsonKeys (fallback_sentence_entry item) =
        [cs "word", cs "sentences", cs "part_of_speech"] ∧
      jsonGetD (fallback_sentence_entry item) (cs "sentences") .null =
        .arr [.str (cs "This is an example sentence using the word '" ++
          item.word ++ cs "'.")] ∧
      cs "example_sentences" ∉ jsonKeys (fallback_sentence_entry item)) ∧
    (cs "\"sentences\": [\"sentence 1 using the word\"") <:+: sentencePrompt items := by
  refine ⟨?_, ?_, ?_, rfl, ⟨rfl, rfl, ?_⟩, ?_⟩
  · intro hn
    simp [extract_sentences_from_response, hn]
  · intro s hs hp
    simp [extract_sentences_from_response, hs, hp]
  · refine ⟨_, rfl, rfl, rfl, ?_⟩
    simp [jsonKeys, cs]
  · simp [jsonKeys, fallback_sentence_entry, cs]
  · have hsub : (cs "\"sentences\": [\"sentence 1 using the word\"") <:+:
        sentencePromptB :=
      infix_of_drop_take sentencePromptB _ 447 (by decide)
    have hsuf : sentencePromptB <:+ sentencePrompt items := by
      unfold sentencePrompt
      exact (List.suffix_append _ _)
    exact hsub.trans hsuf.isInfix

/-- Witness for C10 at concrete inputs. -/
theorem degraded_sentence_entry_key_mismatch_witness :
    extract_sentences_from_response (cs "all failed") =
      degraded_sentences (cs "all failed") ∧
    jsonKeys (fallback_sentence_entry ⟨cs "run", cs "move", cs "verb"⟩) =
      [cs "word", cs "sentences", cs "part_of_speech"] := by
  constructor
  · exact (degraded_sentence_entry_key_mismatch (cs "all failed") [] 
      ⟨cs "run", cs "move", cs "verb"⟩).1 (by rfl)
  · exact (degraded_sentence_entry_key_mismatch (cs "all failed") []
      ⟨cs "run", cs "move", cs "verb"⟩).2.2.2.2.1.1

theorem strScan_pass {w : List Char} (hw : benignStr w = true) (r : List Char) :
    strScan (w ++ r) = (strScan r).map fun p => (w ++ p.1, p.2) := by
  induction w with
  | nil => simp only [List.nil_append]; cases strScan r <;> simp
  | cons c tl ih =>
    simp only [benignStr, List.all_cons, Bool.and_eq_true] at hw
    obtain ⟨hc, htl⟩ := hw
    simp only [benignChar, Bool.and_eq_true, bne_iff_ne, ne_eq,
      decide_eq_true_eq] at hc
    simp only [List.cons_append, strScan]
    rw [if_neg hc.1.1.1, if_neg hc.1.1.2, if_neg (by omega)]
    rw [show tl.append r = tl ++ r from rfl, ih htl]
    cases strScan r <;> rfl

theorem benign_no_backtick {w : List Char} (hw : benignStr w = true) :
    '\x60' ∉ w := by
  intro hm
  have := (List.all_eq_true.mp hw) _ hm
  simp [benignChar] at this

theorem not_infix_of_head_not_mem {c : Char} {p l : List Char} (h : c ∉ l) :
    ¬ ((c :: p) <:+: l) :=
  fun hi => h (hi.subset (List.mem_cons_self c p))

set_option maxRecDepth 4000 in
theorem parse_fb_words (w : List Char) (hw : benignStr w = true) :
    ∀ k, parseVal (k + 64) (get_fallback_definition w) =
      some (wordFallbackJson w, []) := by
  intro k
  simp only [get_fallback_definition, fbWordA, fbWordB, fbWordC, cs,
    wordFallbackJson, List.append_assoc]
  simp [parseVal, parseMembers, parseElems, skipWs, jsonWs, strScan,
    strScan_pass hw, List.append_assoc]

set_option maxRecDepth 4000 in
theorem parse_fb_phrase (p : List Char) (hp : benignStr p = true) :
    ∀ k, parseVal (k + 64) (get_fallback_phrase_definition p) =
      some (phraseFallbackJson p, []) := by
  intro k
  simp only [get_fallback_phrase_definition, fbPhraseA, fbPhraseB, fbPhraseC, cs,
    phraseFallbackJson, List.append_assoc]
  simp [parseVal, parseMembers, parseElems, skipWs, jsonWs, strScan,
    strScan_pass hp, List.append_assoc]

set_option maxRecDepth 4000 in
theorem gfd_shape (w : List Char) :
    get_fallback_definition w = '\x7b' :: (fbWordMid w ++ ['\x7d']) := by
  simp [get_fallback_definition, fbWordMid, fbWordA, fbWordA0, fbWordB,
    fbWordC, fbWordC0, cs, List.append_assoc]

set_option maxRecDepth 4000 in
theorem gfp_shape (p : List Char) :
    get_fallback_phrase_definition p = '\x7b' :: (fbPhraseMid p ++ ['\x7d']) := by
  simp [get_fallback_phrase_definition, fbPhraseMid, fbPhraseA, fbPhraseA0,
    fbPhraseB, fbPhraseC, fbPhraseC0, cs, List.append_assoc]

theorem braceSpan_fb_words (w : List Char) :
    braceSpan (get_fallback_definition w) = some (get_fallback_definition w) := by
  rw [gfd_shape]
  have h := braceSpan_first_to_last [] (fbWordMid w) [] (by simp) (by simp)
  simpa using h

theorem braceSpan_fb_phrase (p : List Char) :
    braceSpan (get_fallback_phrase_definition p) =
      some (get_fallback_phrase_definition p) := by
  rw [gfp_shape]
  have h := braceSpan_first_to_last [] (fbPhraseMid p) [] (by simp) (by simp)
  simpa using h

set_option maxRecDepth 4000 in
theorem clean_fb_words (w : List Char) (hw : benignStr w = true) :
    cleanJsonStr (get_fallback_definition w) = get_fallback_definition w := by
  rw [gfd_shape]
  apply cleanJsonStr_id
  apply not_infix_of_head_not_mem
  simp only [fbWordMid, List.mem_cons, List.mem_append, not_or]
  exact ⟨by decide, ⟨⟨⟨⟨by decide, fun hm => benign_no_backtick hw hm⟩,
    by decide⟩, fun hm => benign_no_backtick hw hm⟩, by decide⟩,
    by decide, by decide⟩

set_option maxRecDepth 4000 in
theorem clean_fb_phrase (p : List Char) (hp : benignStr p = true) :
    cleanJsonStr (get_fallback_phrase_definition p) =
      get_fallback_phrase_definition p := by
  rw [gfp_shape]
  apply cleanJsonStr_id
  apply not_infix_of_head_not_mem
  simp only [fbPhraseMid, List.mem_cons, List.mem_append, not_or]
  exact ⟨by decide, ⟨⟨⟨⟨by decide, fun hm => benign_no_backtick hp hm⟩,
    by decide⟩, fun hm => benign_no_backtick hp hm⟩, by decide⟩,
    by decide, by decide⟩

set_option maxRecDepth 4000 in
theorem parseJson_fb_words (w : List Char) (hw : benignStr w = true) :
    parseJson (get_fallback_definition w) = some (wordFallbackJson w) := by
  unfold parseJson
  have hlen : ∃ m, (get_fallback_definition w).length = m + 64 := by
    refine ⟨(get_fallback_definition w).length - 64, ?_⟩
    have h64 : 64 ≤ (get_fallback_definition w).length := by
      simp only [get_fallback_definition, fbWordA, fbWordB, fbWordC, cs,
        List.length_append]
      simp
    omega
  obtain ⟨m, hm⟩ := hlen
  rw [hm, parse_fb_words w hw m]
  rfl

set_option maxRecDepth 4000 in
theorem parseJson_fb_phrase (p : List Char) (hp : benignStr p = true) :
    parseJson (get_fallback_phrase_definition p) = some (phraseFallbackJson p) := by
  unfold parseJson
  have hlen : ∃ m, (get_fallback_phrase_definition p).length = m + 64 := by
    refine ⟨(get_fallback_phrase_definition p).length - 64, ?_⟩
    have h64 : 64 ≤ (get_fallback_phrase_definition p).length := by
      simp only [get_fallback_phrase_definition, fbPhraseA, fbPhraseB, fbPhraseC,
        cs, List.length_append]
      simp
    omega
  obtain ⟨m, hm⟩ := hlen
  rw [hm, parse_fb_phrase p hp m]
  rfl

/-- For a benign word, extracting the words fallback string recovers
exactly the placeholder object. -/
theorem extract_fb_words (w : List Char) (hw : benignStr w = true) :
    extract_definitions_from_response_for_words (get_fallback_definition w) =
      wordFallbackJson w := by
  simp [extract_definitions_from_response_for_words, braceSpan_fb_words,
    clean_fb_words w hw, parseJson_fb_words w hw]

/-- For a benign phrase, extracting the phrase fallback string recovers
exactly the placeholder object. -/
theorem extract_fb_phrase (p : List Char) (hp : benignStr p = true) :
    extract_phrase_meanings_from_response (get_fallback_phrase_definition p) =
      phraseFallbackJson p := by
  simp [extract_phrase_meanings_from_response, braceSpan_fb_phrase,
    clean_fb_phrase p hp, parseJson_fb_phrase p hp]

/-- C4: each single-word/single-phrase lookup makes at most two provider
attempts — the first with timeout 15, and a second with timeout 30 only
when the first fails — and when the second attempt also fails the
client returns the synthesized fallback string instead of raising,
whose extraction yields exactly one meaning whose definition contains
"temporarily unavailable".  (Stated for lookup texts whose characters
are benign — no quote, backslash, backtick or control character — so
the interpolated fallback template is well-formed; a malformed body on
an ok-status last response is the subject of C3.) -/
theorem single_lookup_retry_then_fallback
    (key : Option (List Char)) (hk : keyMissing key = false)
    (w p : List Char) (hw : benignStr w = true) (hp : benignStr p = true)
    (oracle : Nat → Outcome) :
    ((call_gemini_for_definitions key w oracle).2 =
      if attemptSucceeds (oracle 0) then [15] else [15, 30]) ∧
    ((call_gemini_for_phrase_meanings key p oracle).2 =
      if phraseLoopContinues (oracle 0) then [15, 30] else [15]) ∧
    (transportFail (oracle 0) = true → attemptFails (oracle 1) = true →
      call_gemini_for_definitions key w oracle =
        (.ok (get_fallback_definition w), [15, 30])) ∧
    (transportFail (oracle 0) = true → transportFail (oracle 1) = true →
      call_gemini_for_phrase_meanings key p oracle =
        (.ok (get_fallback_phrase_definition p), [15, 30])) ∧
    (extract_definitions_from_response_for_words (get_fallback_definition w) =
        wordFallbackJson w ∧
      jsonGetD (wordFallbackJson w) (cs "meanings") .null =
        .arr [.obj [(cs "definition", .str
            (cs "Definition temporarily unavailable. Please try again later.")),
          (cs "part_of_speech", .str (cs "unknown")),
          (cs "examples", .arr [.str
            (cs "The word '" ++ w ++ cs "' is being processed.")]),
          (cs "synonyms", .arr [])]] ∧
      (cs "temporarily unavailable") <:+:
        (cs "Definition temporarily unavailable. Please try again later.")) ∧
    (extract_phrase_meanings_from_response (get_fallback_phrase_definition p) =
        phraseFallbackJson p ∧
      jsonGetD (phraseFallbackJson p) (cs "meanings") .null =
        .arr [.obj [(cs "definition", .str
            (cs "Definition temporarily unavailable. Please try again later.")),
          (cs "context", .str (cs "general")),
          (cs "examples", .arr [.str
            (cs "The phrase '" ++ p ++ cs "' is being processed.")]),
          (cs "similar_phrases", .arr [])]] ∧
      (cs "temporarily unavailable") <:+:
        (cs "Definition temporarily unavailable. Please try again later.")) := by
  refine ⟨?_, ?_, ?_, ?_,
    ⟨extract_fb_words w hw, rfl, by decide⟩,
    ⟨extract_fb_phrase p hp, rfl, by decide⟩⟩
  · cases o0 : oracle 0 with
    | timeout =>
      cases o1 : oracle 1 with
      | timeout => simp [call_gemini_for_definitions, attemptSucceeds, hk, o0, o1]
      | transportError => simp [call_gemini_for_definitions, attemptSucceeds, hk, o0, o1]
      | resp s b =>
        cases b <;>
          simp only [call_gemini_for_definitions, attemptSucceeds, hk,
            Bool.false_eq_true, if_false, o0, o1] <;>
          by_cases hok : respOk s = true <;> simp [hok]
    | transportError =>
      cases o1 : oracle 1 with
      | timeout => simp [call_gemini_for_definitions, attemptSucceeds, hk, o0, o1]
      | transportError => simp [call_gemini_for_definitions, attemptSucceeds, hk, o0, o1]
      | resp s b =>
        cases b <;>
          simp only [call_gemini_for_definitions, attemptSucceeds, hk,
            Bool.false_eq_true, if_false, o0, o1] <;>
          by_cases hok : respOk s = true <;> simp [hok]
    | resp s b =>
      cases b with
      | invalid =>
        by_cases hok : respOk s = true <;>
        · cases o1 : oracle 1 with
          | timeout => simp [call_gemini_for_definitions, attemptSucceeds, hk, o0, o1, hok]
          | transportError => simp [call_gemini_for_definitions, attemptSucceeds, hk, o0, o1, hok]
          | resp s2 b2 =>
            cases b2 <;>
              simp only [call_gemini_for_definitions, attemptSucceeds, hk,
                Bool.false_eq_true, if_false, o0, o1, hok] <;>
              by_cases hok2 : respOk s2 = true <;> simp [hok, hok2]
      | text t =>
        by_cases hok : respOk s = true
        · simp [call_gemini_for_definitions, attemptSucceeds, hk, o0, hok]
        · cases o1 : oracle 1 with
          | timeout => simp [call_gemini_for_definitions, attemptSucceeds, hk, o0, o1, hok]
          | transportError => simp [call_gemini_for_definitions, attemptSucceeds, hk, o0, o1, hok]
          | resp s2 b2 =>
            cases b2 <;>
              simp only [call_gemini_for_definitions, attemptSucceeds, hk,
                Bool.false_eq_true, if_false, o0, o1, hok] <;>
              by_cases hok2 : respOk s2 = true <;> simp [hok, hok2]
  · cases o0 : oracle 0 with
    | timeout =>
      cases o1 : oracle 1 with
      | timeout => simp [call_gemini_for_phrase_meanings, phraseLoopContinues, hk, o0, o1]
      | transportError => simp [call_gemini_for_phrase_meanings, phraseLoopContinues, hk, o0, o1]
      | resp s b =>
        cases b <;>
          simp only [call_gemini_for_phrase_meanings, phraseLoopContinues, hk,
            Bool.false_eq_true, if_false, o0, o1] <;>
          by_cases hok : respOk s = true <;> simp [hok]
    | transportError =>
      cases o1 : oracle 1 with
      | timeout => simp [call_gemini_for_phrase_meanings, phraseLoopContinues, hk, o0, o1]
      | transportError => simp [call_gemini_for_phrase_meanings, phraseLoopContinues, hk, o0, o1]
      | resp s b =>
        cases b <;>
          simp only [call_gemini_for_phrase_meanings, phraseLoopContinues, hk,
            Bool.false_eq_true, if_false, o0, o1] <;>
          by_cases hok : respOk s = true <;> simp [hok]
    | resp s b =>
      by_cases hok : respOk s = true
      · cases b <;> simp [call_gemini_for_phrase_meanings, phraseLoopContinues, hk, o0, hok]
      · cases o1 : oracle 1 with
        | timeout =>
          cases b <;> simp [call_gemini_for_phrase_meanings, phraseLoopContinues, hk, o0, o1, hok]
        | transportError =>
          cases b <;> simp [call_gemini_for_phrase_meanings, phraseLoopContinues, hk, o0, o1, hok]
        | resp s2 b2 =>
          cases b <;> cases b2 <;>
            simp only [call_gemini_for_phrase_meanings, phraseLoopContinues, hk,
              Bool.false_eq_true, if_false, o0, o1, hok] <;>
            by_cases hok2 : respOk s2 = true <;> simp [hok, hok2]
  · intro h0 h1
    cases o0 : oracle 0 with
    | timeout =>
      cases o1 : oracle 1 with
      | timeout => simp [call_gemini_for_definitions, hk, o0, o1]
      | transportError => simp [call_gemini_for_definitions, hk, o0, o1]
      | resp s b =>
        rw [o1] at h1
        cases b with
        | invalid => simp [call_gemini_for_definitions, hk, o0, o1]
        | text t =>
          simp only [attemptFails, attemptSucceeds, Bool.not_eq_true'] at h1
          simp [call_gemini_for_definitions, hk, o0, o1, h1]
    | transportError =>
      cases o1 : oracle 1 with
      | timeout => simp [call_gemini_for_definitions, hk, o0, o1]
      | transportError => simp [call_gemini_for_definitions, hk, o0, o1]
      | resp s b =>
        rw [o1] at h1
        cases b with
        | invalid => simp [call_gemini_for_definitions, hk, o0, o1]
        | text t =>
          simp only [attemptFails, attemptSucceeds, Bool.not_eq_true'] at h1
          simp [call_gemini_for_definitions, hk, o0, o1, h1]
    | resp s b =>
      rw [o0] at h0
      simp only [transportFail, Bool.not_eq_true'] at h0
      cases o1 : oracle 1 with
      | timeout =>
        cases b <;> simp [call_gemini_for_definitions, hk, o0, o1, h0]
      | transportError =>
        cases b <;> simp [call_gemini_for_definitions, hk, o0, o1, h0]
      | resp s2 b2 =>
        rw [o1] at h1
        cases b <;> cases b2 with
        | invalid => simp [call_gemini_for_definitions, hk, o0, o1, h0]
        | text t2 =>
          simp only [attemptFails, attemptSucceeds, Bool.not_eq_true'] at h1
          simp [call_gemini_for_definitions, hk, o0, o1, h0, h1]
  · intro h0 h1
    cases o0 : oracle 0 with
    | timeout =>
      cases o1 : oracle 1 with
      | timeout => simp [call_gemini_for_phrase_meanings, hk, o0, o1]
      | transportError => simp [call_gemini_for_phrase_meanings, hk, o0, o1]
      | resp s b =>
        rw [o1] at h1
        simp only [transportFail, Bool.not_eq_true'] at h1
        cases b <;> simp [call_gemini_for_phrase_meanings, hk, o0, o1, h1]
    | transportError =>
      cases o1 : oracle 1 with
      | timeout => simp [call_gemini_for_phrase_meanings, hk, o0, o1]
      | transportError => simp [call_gemini_for_phrase_meanings, hk, o0, o1]
      | resp s b =>
        rw [o1] at h1
        simp only [transportFail, Bool.not_eq_true'] at h1
        cases b <;> simp [call_gemini_for_phrase_meanings, hk, o0, o1, h1]
    | resp s b =>
      rw [o0] at h0
      simp only [transportFail, Bool.not_eq_true'] at h0
      cases o1 : oracle 1 with
      | timeout =>
        cases b <;> simp [call_gemini_for_phrase_meanings, hk, o0, o1, h0]
      | transportError =>
        cases b <;> simp [call_gemini_for_phrase_meanings, hk, o0, o1, h0]
      | resp s2 b2 =>
        rw [o1] at h1
        simp only [transportFail, Bool.not_eq_true'] at h1
        cases b <;> cases b2 <;>
          simp [call_gemini_for_phrase_meanings, hk, o0, o1, h0, h1]

/-- Witness for C4 at concrete inputs: the provider times out twice on
the word "xyzzy123". -/
theorem single_lookup_retry_then_fallback_witness :
    keyMissing (some (cs "k")) = false ∧
    benignStr (cs "xyzzy123") = true ∧
    transportFail Outcome.timeout = true ∧
    attemptFails Outcome.timeout = true ∧
    call_gemini_for_definitions (some (cs "k")) (cs "xyzzy123")
      (fun _ => .timeout) =
      (.ok (get_fallback_definition (cs "xyzzy123")), [15, 30]) ∧
    extract_definitions_from_response_for_words
      (get_fallback_definition (cs "xyzzy123")) =
      wordFallbackJson (cs "xyzzy123") := by
  refine ⟨by decide, by decide, by decide, by decide, ?_, ?_⟩
  · exact (single_lookup_retry_then_fallback (some (cs "k")) (by decide)
      (cs "xyzzy123") (cs "hit the road") (by decide) (by decide)
      (fun _ => .timeout)).2.2.1 (by decide) (by decide)
  · exact (single_lookup_retry_then_fallback (some (cs "k")) (by decide)
      (cs "xyzzy123") (cs "hit the road") (by decide) (by decide)
      (fun _ => .timeout)).2.2.2.2.1.1
